import Mathlib

/-!
Verification model of `src/routes/audible.py` (audiobooksmith-app).

The repository is a small Flask blueprint: `POST /upload` accepts a book
file, `analyze_book_content` computes text statistics and regex-based
metadata, the result is persisted as a JSON file keyed by a generated
`project_id`, and `GET /analyze/<project_id>` / `GET /api/analysis/<project_id>`
read it back.

The embedding below models text as `String` (Python `str`: a sequence of
code points), the two storage directories as association lists from file
names to contents (the filesystem-as-database of the code, with JSON
serialization of records abstracted to the records themselves), and the
nondeterministic inputs of a request (the two `uuid.uuid4()` calls and
`datetime.now()`) as explicit parameters.  Reading the saved upload may
fail (any I/O error is caught by `analyze_book_content`); this is modelled
by an optional read error carried by the uploaded payload.  Python floats
are modelled by exact rationals `ℚ`, with `round(x, 2)` modelled as
round-half-to-even at two decimal places.
-/

set_option autoImplicit false
set_option maxRecDepth 2000

namespace Audible

/-- The whitespace set of Python `str.split()` / `str.strip()` / `\s`
(CPython's Unicode whitespace). -/
def isPySpace (c : Char) : Bool :=
  c = ' ' || c = '\t' || c = '\n' || c = '\r' ||
  c.val = 0x0b || c.val = 0x0c ||
  c.val = 0x1c || c.val = 0x1d || c.val = 0x1e || c.val = 0x1f ||
  c.val = 0x85 || c.val = 0xa0 || c.val = 0x1680 ||
  (0x2000 ≤ c.val && c.val ≤ 0x200a) ||
  c.val = 0x2028 || c.val = 0x2029 || c.val = 0x202f || c.val = 0x205f ||
  c.val = 0x3000

/-- Python `content.split()` (line 33): split on runs of whitespace,
discarding empty pieces.  `acc` is the current token being built,
in reverse. -/
def wsSplitAux : List Char → List Char → List (List Char)
  | [], acc => if acc.isEmpty then [] else [acc.reverse]
  | c :: cs, acc =>
    if isPySpace c then
      if acc.isEmpty then wsSplitAux cs [] else acc.reverse :: wsSplitAux cs []
    else
      wsSplitAux cs (c :: acc)

/-- Python `content.split()` with no argument. -/
def pySplitWs (l : List Char) : List (List Char) := wsSplitAux l []

/-- Python `content.split('\n')` (line 35): split at every newline,
keeping empty pieces; the result always has (number of newlines + 1)
pieces. -/
def splitNewlines : List Char → List (List Char)
  | [] => [[]]
  | c :: cs =>
    if c = '\n' then [] :: splitNewlines cs
    else
      match splitNewlines cs with
      | [] => [[c]]
      | t :: ts => (c :: t) :: ts

/-- Python `str.strip()`: remove leading and trailing whitespace. -/
def pyStrip (l : List Char) : List Char :=
  ((l.dropWhile isPySpace).reverse.dropWhile isPySpace).reverse

/-- A character matched by the class `[:\s]` in the metadata patterns. -/
def isSepChar (c : Char) : Bool := c = ':' || isPySpace c

/-- Case-insensitive prefix test, as `(?i)` pattern matching of an
ASCII label against the text. -/
def ciStartsWith : List Char → List Char → Bool
  | [], _ => true
  | _ :: _, [] => false
  | p :: ps, c :: cs => (p.toLower = c.toLower) && ciStartsWith ps cs

/-- Backtracking step of matching `[:\s]+([^\n]+)` after the label:
`[:\s]+` greedily consumes `k+1` characters (at most the maximal run of
separator characters), then `([^\n]+)` must match at least one character.
Tries the largest consumption first and hands characters back on failure,
exactly as the regex engine does.  Returns the captured group. -/
def backtrackGroup : Nat → List Char → Option (List Char)
  | 0, _ => none
  | k + 1, rest =>
    match rest.drop (k + 1) with
    | [] => backtrackGroup k rest
    | c :: cs =>
      if c = '\n' then backtrackGroup k rest
      else some (c :: cs.takeWhile (fun d => d ≠ '\n'))

/-- Try to match `(?i)<label>[:\s]+([^\n]+)` at the head of `l`;
on success return the captured group. -/
def labelMatchAt (label l : List Char) : Option (List Char) :=
  if ciStartsWith label l then
    let rest := l.drop label.length
    backtrackGroup (rest.takeWhile isSepChar).length rest
  else none

/-- Python `re.search` of `(?i)<label>[:\s]+([^\n]+)` (lines 38-39): leftmost
match wins; returns the captured group of the first position that
matches. -/
def searchLabel (label : List Char) : List Char → Option (List Char)
  | [] => none
  | c :: cs =>
    match labelMatchAt label (c :: cs) with
    | some g => some g
    | none => searchLabel label cs

/-- Metadata extraction (lines 38-39 and 60-61): search the pattern over
only the first 2000 characters; on a match return the stripped captured
group, otherwise the literal `"Unknown"`.  Python's slice `content[:2000]`
is slicing of code points, i.e. `List.take 2000` on `content.data`. -/
def extractLabel (label : List Char) (content : String) : String :=
  match searchLabel label (content.data.take 2000) with
  | some g => String.mk (pyStrip g)
  | none => "Unknown"

/-- Floor of a rational, written explicitly so that it reduces inside the
kernel (`Int.fdiv` is floor division and the denominator is positive). -/
def ratFloor (q : ℚ) : ℤ := Int.fdiv q.num q.den

/-- Round-half-to-even to an integer, the tie behaviour of Python's
`round`. -/
def roundHalfEven (q : ℚ) : ℤ :=
  let n := ratFloor q
  if q - n < 1/2 then n
  else if 1/2 < q - n then n + 1
  else if n % 2 = 0 then n else n + 1

/-- Python `round(x, 2)` (lines 56-57), over exact rationals. -/
def round2 (q : ℚ) : ℚ := (roundHalfEven (q * 100) : ℚ) / 100

/-- The `statistics` sub-dictionary of an analysis record (lines 52-58). -/
structure Statistics where
  word_count : Nat
  character_count : Nat
  line_count : Nat
  estimated_reading_time_minutes : ℚ
  estimated_reading_time_hours : ℚ
deriving DecidableEq, Repr

/-- The `metadata` sub-dictionary of an analysis record (lines 59-62). -/
structure BookMetadata where
  title : String
  author : String
deriving DecidableEq, Repr

/-- An analysis record, as the Python dictionary built by
`analyze_book_content` (lines 46-65 on success, 69-72 on failure).
`Option` fields model keys that are absent in one of the two shapes:
a failed record carries only `error` and `analysis_status` (until the
upload handler adds `project_id`, line 105). -/
structure AnalysisRecord where
  project_id : Option String
  user_name : Option String
  user_email : Option String
  filename : Option String
  analysis_date : Option String
  statistics : Option Statistics
  metadata : Option BookMetadata
  content_preview : Option String
  error : Option String
  analysis_status : String
deriving DecidableEq, Repr

/-- The `analyze_book_content` function (lines 25-72).  `inner_uuid` is the
`uuid.uuid4()` generated at line 47, `now` the `datetime.now()` timestamp,
`readResult` the outcome of opening and reading the saved file
(`errors='ignore'` decoding cannot fail, but the I/O can), and
`stored_basename` is `os.path.basename(file_path)`. -/
def analyze_book_content (inner_uuid now : String) (readResult : Except String String)
    (stored_basename user_name user_email : String) : AnalysisRecord :=
  match readResult with
  | .error e =>
    { project_id := none, user_name := none, user_email := none,
      filename := none, analysis_date := none, statistics := none,
      metadata := none, content_preview := none,
      error := some e, analysis_status := "failed" }
  | .ok content =>
    let word_count := (pySplitWs content.data).length
    let char_count := content.length
    let line_count := (splitNewlines content.data).length
    let reading_time_minutes : ℚ := (word_count : ℚ) / 200
    let reading_time_hours : ℚ := reading_time_minutes / 60
    { project_id := some inner_uuid,
      user_name := some user_name,
      user_email := some user_email,
      filename := some stored_basename,
      analysis_date := some now,
      statistics := some
        { word_count := word_count,
          character_count := char_count,
          line_count := line_count,
          estimated_reading_time_minutes := round2 reading_time_minutes,
          estimated_reading_time_hours := round2 reading_time_hours },
      metadata := some
        { title := extractLabel "title".data content,
          author := extractLabel "author".data content },
      content_preview :=
        some (if 500 < content.length then String.mk (content.data.take 500) ++ "..."
              else content),
      error := none, analysis_status := "completed" }

/-- The allow-list `ALLOWED_EXTENSIONS` (line 16). -/
def allowedExts : List String := ["txt", "pdf", "epub", "mobi", "azw", "azw3"]

/-- Python `str.lower()` on an extension. -/
def lowerString (s : String) : String := String.mk (s.data.map Char.toLower)

/-- Python `filename.rsplit('.', 1)[1]`: the part after the last dot. -/
def fileExt (filename : String) : String :=
  String.mk ((filename.data.reverse.takeWhile (fun c => c ≠ '.')).reverse)

/-- The `allowed_file` check (lines 22-23): the filename contains a dot and the
lowercased part after the last dot is an allowed extension. -/
def allowed_file (filename : String) : Bool :=
  filename.data.contains '.' && allowedExts.contains (lowerString (fileExt filename))

/-- Modelled from the spec: werkzeug's `secure_filename` (line 97) is
declared out of scope by the spec ("filename sanitization"); modelled as
keeping only filesystem-safe characters.  No claim depends on its exact
behaviour. -/
def secure_filename (s : String) : String :=
  String.mk (s.data.filter (fun c => c.isAlphanum || c = '.' || c = '-' || c = '_'))

/-- The uploaded file of a request (`request.files['bookFile']`).
`raw` is the payload that `file.save` writes; `readError` models a
possible I/O failure when `analyze_book_content` reopens and reads the
saved file (the `errors='ignore'` decode itself cannot fail). -/
structure FilePayload where
  filename : String
  raw : String
  readError : Option String
deriving DecidableEq, Repr

/-- A `POST /upload` request: the two form fields and the optional file
part (`none` models `'bookFile' not in request.files`). -/
structure UploadRequest where
  fullName : String
  email : String
  bookFile : Option FilePayload
deriving DecidableEq, Repr

/-- The outcome of reading the saved upload back from disk (lines 29-30). -/
def fileRead (f : FilePayload) : Except String String :=
  match f.readError with
  | some e => Except.error e
  | none => Except.ok f.raw

/-- The filesystem-as-database: the two fixed directories, each an
association list from file name to contents, newest entry first (a later
write to the same name shadows the earlier one, as on a filesystem).
JSON serialization of analysis records (lines 109-110, 129-130, 146-147)
is abstracted: the stored value is the record itself. -/
structure Store where
  uploads : List (String × String)
  analyses : List (String × AnalysisRecord)
deriving DecidableEq, Repr

/-- Response of `POST /upload` (lines 79-118). -/
inductive UploadResult where
  | redirectToAnalyze (project_id : String)
  | badRequest (msg : String)
  | internalError (msg : String)
deriving DecidableEq, Repr

/-- HTTP status of an upload response: a redirect on success, `400` on
invalid input, `500` on unexpected failure. -/
def uploadStatus : UploadResult → Nat
  | .redirectToAnalyze _ => 302
  | .badRequest _ => 400
  | .internalError _ => 500

/-- Response of `GET /analyze/<project_id>` (lines 120-135). -/
inductive PageResult where
  | page (analysis : AnalysisRecord)
  | pageNotFound
  | pageError (msg : String)
deriving DecidableEq, Repr

/-- HTTP status of the page view: `200`, `404` ("Analysis not found"),
or `500`. -/
def pageStatus : PageResult → Nat
  | .page _ => 200
  | .pageNotFound => 404
  | .pageError _ => 500

/-- Response of `GET /api/analysis/<project_id>` (lines 137-152). -/
inductive ApiResult where
  | jsonData (analysis : AnalysisRecord)
  | apiNotFound (msg : String)
  | apiError (msg : String)
deriving DecidableEq, Repr

/-- HTTP status of the JSON view. -/
def apiStatus : ApiResult → Nat
  | .jsonData _ => 200
  | .apiNotFound _ => 404
  | .apiError _ => 500

/-- The `upload_file` handler (lines 79-118).  `project_id` is the `uuid.uuid4()` of
line 96, `inner_uuid` the one of line 47, `now` the timestamp.  On
acceptance the raw payload is saved as `<project_id>_<secure_filename>`,
the analysis record gets its `project_id` overwritten (line 105) and is
saved as `<project_id>_analysis.json`, and the caller is redirected to
the analysis page.  Each rejection returns 400 and leaves the store
untouched.  (The werkzeug `FileStorage` truthiness test `if file` at
line 94 is equivalent to `file.filename != ''`, which was already
checked at line 91.) -/
def upload_file (st : Store) (project_id inner_uuid now : String) (req : UploadRequest) :
    UploadResult × Store :=
  match req.bookFile with
  | none => (.badRequest "No file selected", st)
  | some file =>
    if file.filename = "" then (.badRequest "No file selected", st)
    else if allowed_file file.filename then
      let filename := secure_filename file.filename
      let stored_name := project_id ++ "_" ++ filename
      let st1 : Store := { st with uploads := (stored_name, file.raw) :: st.uploads }
      let analysis0 :=
        analyze_book_content inner_uuid now (fileRead file) stored_name req.fullName req.email
      let analysis := { analysis0 with project_id := some project_id }
      let st2 : Store :=
        { st1 with analyses := (project_id ++ "_analysis.json", analysis) :: st1.analyses }
      (.redirectToAnalyze project_id, st2)
    else (.badRequest "Invalid file type", st)

/-- The `analyze` handler (lines 120-135): the rendered analysis page.  Returns the
unchanged store, as the handler only reads. -/
def analyze (st : Store) (project_id : String) : PageResult × Store :=
  match st.analyses.lookup (project_id ++ "_analysis.json") with
  | none => (.pageNotFound, st)
  | some a => (.page a, st)

/-- The `get_analysis_data` handler (lines 137-152): the JSON view of a record. -/
def get_analysis_data (st : Store) (project_id : String) : ApiResult × Store :=
  match st.analyses.lookup (project_id ++ "_analysis.json") with
  | none => (.apiNotFound "Analysis not found", st)
  | some a => (.jsonData a, st)

/-- Stores reachable from the empty filesystem by any sequence of
requests. -/
inductive Reachable : Store → Prop where
  | init : Reachable { uploads := [], analyses := [] }
  | upload (st : Store) (project_id inner_uuid now : String) (req : UploadRequest) :
      Reachable st → Reachable (upload_file st project_id inner_uuid now req).2
  | view (st : Store) (project_id : String) :
      Reachable st → Reachable (analyze st project_id).2
  | apiView (st : Store) (project_id : String) :
      Reachable st → Reachable (get_analysis_data st project_id).2

/-- Counts the whitespace-separated tokens of a text, independently of
`pySplitWs`: a token begins at every non-whitespace character that is at
the start of the text or preceded by whitespace.  `prevSpace` records
whether the previous character was whitespace (true at the start). -/
def tokenCountAux (prevSpace : Bool) : List Char → Nat
  | [] => 0
  | c :: cs => (if prevSpace && !isPySpace c then 1 else 0) + tokenCountAux (isPySpace c) cs

/-- The number of whitespace-separated tokens of a text. -/
def tokenCount (l : List Char) : Nat := tokenCountAux true l

/-- Substring test on code-point lists (used to state that a text
contains a given fragment). -/
def containsSeq (pat : List Char) : List Char → Bool
  | [] => pat.isEmpty
  | c :: cs => pat.isPrefixOf (c :: cs) || containsSeq pat cs

/-- Concrete statistics produced for the three-token text `"a b c"`. -/
def witStats : Statistics :=
  { word_count := 3, character_count := 5, line_count := 1,
    estimated_reading_time_minutes := round2 (((3 : ℕ) : ℚ) / 200),
    estimated_reading_time_hours := round2 (((3 : ℕ) : ℚ) / 200 / 60) }

/-- A text of 501 identical characters, exceeding the preview limit. -/
def longText : String := String.mk (List.replicate 501 'a')

/-- The store obtained by one successful upload into the empty store. -/
def witStore : Store :=
  (upload_file { uploads := [], analyses := [] } "id1" "iu" "d"
    { fullName := "n", email := "e",
      bookFile := some { filename := "b.txt", raw := "hi", readError := none } }).2

/-- The record persisted in `witStore`: the analysis of `"hi"` with its
`project_id` overwritten by the upload handler. -/
def witRecord : AnalysisRecord :=
  { analyze_book_content "iu" "d" (Except.ok "hi") "id1_b.txt" "n" "e" with
    project_id := some "id1" }

theorem wsSplitAux_length (l : List Char) :
    ∀ acc : List Char, (wsSplitAux l acc).length =
      (if acc.isEmpty then tokenCountAux true l else 1 + tokenCountAux false l) := by
  induction l with
  | nil =>
    intro acc
    cases acc <;> simp [wsSplitAux, tokenCountAux]
  | cons c cs ih =>
    intro acc
    by_cases hc : isPySpace c
    · cases acc <;> simp [wsSplitAux, tokenCountAux, hc, ih, Nat.add_comm]
    · cases acc <;> simp [wsSplitAux, tokenCountAux, hc, ih, Nat.add_comm]

/-- Splitting on whitespace yields exactly one piece per token. -/
theorem pySplitWs_length (l : List Char) : (pySplitWs l).length = tokenCount l := by
  simpa [pySplitWs, tokenCount] using wsSplitAux_length l []

theorem splitNewlines_ne_nil (l : List Char) : splitNewlines l ≠ [] := by
  cases l with
  | nil => simp [splitNewlines]
  | cons c cs =>
    by_cases hc : c = '\n'
    · simp [splitNewlines, hc]
    · simp only [splitNewlines, hc, if_false]
      cases splitNewlines cs <;> simp

/-- Splitting at newlines yields (number of newlines + 1) pieces. -/
theorem splitNewlines_length (l : List Char) :
    (splitNewlines l).length = l.count '\n' + 1 := by
  induction l with
  | nil => simp [splitNewlines]
  | cons c cs ih =>
    by_cases hc : c = '\n'
    · simp [splitNewlines, hc, List.count_cons, ih]
    · simp only [splitNewlines, hc, if_false, List.count_cons]
      cases h : splitNewlines cs with
      | nil => exact absurd h (splitNewlines_ne_nil cs)
      | cons t ts =>
        rw [h] at ih
        simp at ih
        simp [ih, hc]

theorem analyze_store_eq (st : Store) (project_id : String) :
    (analyze st project_id).2 = st := by
  unfold analyze
  cases st.analyses.lookup (project_id ++ "_analysis.json") <;> rfl

theorem get_analysis_data_store_eq (st : Store) (project_id : String) :
    (get_analysis_data st project_id).2 = st := by
  unfold get_analysis_data
  cases st.analyses.lookup (project_id ++ "_analysis.json") <;> rfl

/-- C3: for every input text, the computed `statistics.word_count` equals
the number of whitespace-separated tokens of the text (`tokenCount`
counts, independently of the splitting function, one token per
non-whitespace character that starts the text or follows whitespace). -/
theorem word_count_tokens (content inner_uuid now fn u e : String) :
    (analyze_book_content inner_uuid now (Except.ok content) fn u e).statistics.map
      Statistics.word_count = some (tokenCount content.data) := by
  simp [analyze_book_content, pySplitWs_length]

/-- C5: for every input text, `statistics.line_count` equals the number
of newline characters in the text plus one (so it is 1 for the empty
text). -/
theorem line_count_newlines (content inner_uuid now fn u e : String) :
    (analyze_book_content inner_uuid now (Except.ok content) fn u e).statistics.map
      Statistics.line_count = some (content.data.count '\n' + 1) := by
  simp [analyze_book_content, splitNewlines_length]

/-- C4: for every input text, `estimated_reading_time_minutes` is
`word_count / 200` rounded to 2 decimal places and
`estimated_reading_time_hours` is `word_count / 200 / 60` rounded to 2
decimal places, where rounding is Python's `round(x, 2)`
(round-half-to-even, modelled over exact rationals). -/
theorem reading_time_rounding (content inner_uuid now fn u e : String) (stats : Statistics)
    (h : (analyze_book_content inner_uuid now (Except.ok content) fn u e).statistics =
      some stats) :
    stats.estimated_reading_time_minutes = round2 ((stats.word_count : ℚ) / 200) ∧
    stats.estimated_reading_time_hours = round2 ((stats.word_count : ℚ) / 200 / 60) := by
  simp [analyze_book_content] at h
  subst h
  exact ⟨rfl, rfl⟩

theorem reading_time_rounding_witness :
    witStats.estimated_reading_time_minutes = round2 ((witStats.word_count : ℚ) / 200) ∧
    witStats.estimated_reading_time_hours = round2 ((witStats.word_count : ℚ) / 200 / 60) :=
  reading_time_rounding "a b c" "i" "d" "f" "u" "e" witStats rfl

/-- C6: for every input text, `content_preview` is the whole text when it
has at most 500 characters, and otherwise its first 500 characters
followed by the ellipsis marker `"..."`. -/
theorem content_preview_spec (content inner_uuid now fn u e : String) :
    (content.length ≤ 500 →
      (analyze_book_content inner_uuid now (Except.ok content) fn u e).content_preview =
        some content) ∧
    (500 < content.length →
      (analyze_book_content inner_uuid now (Except.ok content) fn u e).content_preview =
        some (String.mk (content.data.take 500) ++ "...")) := by
  constructor
  · intro h
    simp [analyze_book_content]
    omega
  · intro h
    simp [analyze_book_content, h]

theorem longText_length : longText.length = 501 := by
  show longText.data.length = 501
  show (List.replicate 501 'a').length = 501
  simp

theorem content_preview_spec_witness :
    (analyze_book_content "i" "d" (Except.ok "hi") "f" "u" "e").content_preview = some "hi" ∧
    (analyze_book_content "i" "d" (Except.ok longText) "f" "u" "e").content_preview =
      some (String.mk (longText.data.take 500) ++ "...") :=
  ⟨(content_preview_spec "hi" "i" "d" "f" "u" "e").1 (by decide),
   (content_preview_spec longText "i" "d" "f" "u" "e").2 (by simp [longText_length])⟩

/-- C2, counterexample to the claim as stated: the text
`"Title: Foo bar"` contains `"Title: Foo"` within its first 2000
characters, yet `metadata.title` is `"Foo bar"`, not `"Foo"` — the regex
captures the whole remainder of the line, not just the contained
fragment. -/
theorem title_containment_counterexample :
    containsSeq "Title: Foo".data ("Title: Foo bar".data.take 2000) = true ∧
    (analyze_book_content "iu" "d" (Except.ok "Title: Foo bar") "f" "u" "e").metadata.map
      BookMetadata.title = some "Foo bar" ∧
    ("Foo bar" : String) ≠ "Foo" := by
  refine ⟨by decide, ?_, by decide⟩
  simp [analyze_book_content]
  decide

/-- C2, amended: for every input text, `metadata.title` (resp.
`metadata.author`) is `extractLabel` of the `title` (resp. `author`)
label: the stripped capture of the leftmost case-insensitive match of
the label followed by one or more colon-or-whitespace characters and
then the rest of the line, searched over only the first 2000 characters;
if no such match exists the value is the literal `"Unknown"`, and texts
agreeing on their first 2000 characters get the same title.  For the
exact text `"Title: Foo"`, `metadata.title = "Foo"` (mere containment of
`"Title: Foo"` does not determine the value, as the counterexample
shows). -/
theorem title_author_extraction :
    (∀ content inner_uuid now fn u e : String,
      (analyze_book_content inner_uuid now (Except.ok content) fn u e).metadata =
        some { title := extractLabel "title".data content,
               author := extractLabel "author".data content }) ∧
    (∀ content : String, searchLabel "title".data (content.data.take 2000) = none →
      extractLabel "title".data content = "Unknown") ∧
    (∀ c₁ c₂ : String, c₁.data.take 2000 = c₂.data.take 2000 →
      extractLabel "title".data c₁ = extractLabel "title".data c₂) ∧
    extractLabel "title".data "Title: Foo" = "Foo" := by
  refine ⟨fun content inner_uuid now fn u e => ?_, fun content h => ?_, fun c₁ c₂ h => ?_,
    by decide⟩
  · simp [analyze_book_content]
  · simp [extractLabel, h]
  · simp [extractLabel, h]

theorem title_author_extraction_witness :
    extractLabel "title".data "plain text with no label" = "Unknown" ∧
    extractLabel "title".data "abc" = extractLabel "title".data "abc" :=
  ⟨title_author_extraction.2.1 "plain text with no label" (by decide),
   title_author_extraction.2.2.1 "abc" "abc" rfl⟩

/-- C1: every accepted upload (file present, non-empty filename, allowed
extension) redirects to a `project_id` under which an analysis record is
persisted and retrievable via both the page view and the JSON view. -/
theorem upload_roundtrip (st : Store) (project_id inner_uuid now : String)
    (req : UploadRequest) (file : FilePayload)
    (hf : req.bookFile = some file) (hne : ¬ file.filename = "")
    (hok : allowed_file file.filename = true) :
    (upload_file st project_id inner_uuid now req).1 =
      UploadResult.redirectToAnalyze project_id ∧
    ∃ record : AnalysisRecord,
      (analyze (upload_file st project_id inner_uuid now req).2 project_id).1 =
        PageResult.page record ∧
      (get_analysis_data (upload_file st project_id inner_uuid now req).2 project_id).1 =
        ApiResult.jsonData record := by
  refine ⟨by simp [upload_file, hf, hne, hok],
    { analyze_book_content inner_uuid now (fileRead file)
        (project_id ++ "_" ++ secure_filename file.filename) req.fullName req.email with
      project_id := some project_id }, ?_, ?_⟩
  · simp [upload_file, hf, hne, hok, analyze, List.lookup]
  · simp [upload_file, hf, hne, hok, get_analysis_data, List.lookup]

theorem upload_roundtrip_witness :
    (upload_file { uploads := [], analyses := [] } "id1" "iu" "d"
      { fullName := "n", email := "e",
        bookFile := some { filename := "book.txt", raw := "Title: X", readError := none } }).1 =
      UploadResult.redirectToAnalyze "id1" ∧
    ∃ record : AnalysisRecord,
      (analyze (upload_file { uploads := [], analyses := [] } "id1" "iu" "d"
        { fullName := "n", email := "e",
          bookFile := some { filename := "book.txt", raw := "Title: X", readError := none } }).2
        "id1").1 = PageResult.page record ∧
      (get_analysis_data (upload_file { uploads := [], analyses := [] } "id1" "iu" "d"
        { fullName := "n", email := "e",
          bookFile := some { filename := "book.txt", raw := "Title: X", readError := none } }).2
        "id1").1 = ApiResult.jsonData record :=
  upload_roundtrip { uploads := [], analyses := [] } "id1" "iu" "d"
    { fullName := "n", email := "e",
      bookFile := some { filename := "book.txt", raw := "Title: X", readError := none } }
    { filename := "book.txt", raw := "Title: X", readError := none }
    rfl (by decide) (by decide)

/-- C7: every rejected upload (no file part, empty filename, or
extension not in the allow-list) returns a 400 client error and leaves
the stored state (both directories) unchanged. -/
theorem reject_leaves_store_unchanged (st : Store) (project_id inner_uuid now : String)
    (req : UploadRequest)
    (h : req.bookFile = none ∨ ∃ file : FilePayload, req.bookFile = some file ∧
      (file.filename = "" ∨ allowed_file file.filename = false)) :
    uploadStatus (upload_file st project_id inner_uuid now req).1 = 400 ∧
    (∃ msg, (upload_file st project_id inner_uuid now req).1 = UploadResult.badRequest msg) ∧
    (upload_file st project_id inner_uuid now req).2 = st := by
  rcases h with h | ⟨file, hf, hcase⟩
  · simp [upload_file, h, uploadStatus]
  · rcases hcase with h1 | h2
    · simp [upload_file, hf, h1, uploadStatus]
    · by_cases h1 : file.filename = "" <;>
        simp [upload_file, hf, h1, h2, uploadStatus]

theorem reject_leaves_store_unchanged_witness :
    uploadStatus (upload_file { uploads := [("k", "v")], analyses := [] } "id1" "iu" "d"
      { fullName := "n", email := "e",
        bookFile := some { filename := "malware.exe", raw := "MZ", readError := none } }).1 =
      400 ∧
    (∃ msg, (upload_file { uploads := [("k", "v")], analyses := [] } "id1" "iu" "d"
      { fullName := "n", email := "e",
        bookFile := some { filename := "malware.exe", raw := "MZ", readError := none } }).1 =
      UploadResult.badRequest msg) ∧
    (upload_file { uploads := [("k", "v")], analyses := [] } "id1" "iu" "d"
      { fullName := "n", email := "e",
        bookFile := some { filename := "malware.exe", raw := "MZ", readError := none } }).2 =
      { uploads := [("k", "v")], analyses := [] } :=
  reject_leaves_store_unchanged { uploads := [("k", "v")], analyses := [] } "id1" "iu" "d"
    { fullName := "n", email := "e",
      bookFile := some { filename := "malware.exe", raw := "MZ", readError := none } }
    (Or.inr ⟨{ filename := "malware.exe", raw := "MZ", readError := none }, rfl,
      Or.inr (by decide)⟩)

/-- C8: when reading the stored bytes of an accepted upload fails, the
persisted record has `analysis_status = "failed"` and carries the failure
message in `error` in place of the statistics and metadata; the record is
still persisted under the `project_id` and the caller is still redirected
to the analysis page. -/
theorem failed_analysis_persisted (st : Store) (project_id inner_uuid now : String)
    (req : UploadRequest) (file : FilePayload) (e : String)
    (hf : req.bookFile = some file) (hne : ¬ file.filename = "")
    (hok : allowed_file file.filename = true) (herr : file.readError = some e) :
    (upload_file st project_id inner_uuid now req).1 =
      UploadResult.redirectToAnalyze project_id ∧
    ∃ r : AnalysisRecord,
      (upload_file st project_id inner_uuid now req).2.analyses.lookup
        (project_id ++ "_analysis.json") = some r ∧
      r.analysis_status = "failed" ∧ r.error = some e ∧
      r.statistics = none ∧ r.metadata = none := by
  refine ⟨by simp [upload_file, hf, hne, hok],
    { analyze_book_content inner_uuid now (fileRead file)
        (project_id ++ "_" ++ secure_filename file.filename) req.fullName req.email with
      project_id := some project_id }, ?_, ?_⟩
  · simp [upload_file, hf, hne, hok, List.lookup]
  · simp [analyze_book_content, fileRead, herr]

theorem failed_analysis_persisted_witness :
    (upload_file { uploads := [], analyses := [] } "id1" "iu" "d"
      { fullName := "n", email := "e",
        bookFile := some { filename := "b.txt", raw := "", readError := some "disk error" } }).1 =
      UploadResult.redirectToAnalyze "id1" ∧
    ∃ r : AnalysisRecord,
      (upload_file { uploads := [], analyses := [] } "id1" "iu" "d"
        { fullName := "n", email := "e",
          bookFile := some { filename := "b.txt", raw := "", readError := some "disk error" } }).2.analyses.lookup
        ("id1" ++ "_analysis.json") = some r ∧
      r.analysis_status = "failed" ∧ r.error = some "disk error" ∧
      r.statistics = none ∧ r.metadata = none :=
  failed_analysis_persisted { uploads := [], analyses := [] } "id1" "iu" "d"
    { fullName := "n", email := "e",
      bookFile := some { filename := "b.txt", raw := "", readError := some "disk error" } }
    { filename := "b.txt", raw := "", readError := some "disk error" } "disk error"
    rfl (by decide) (by decide) rfl

/-- C9: for a `project_id` with no persisted record, both the page view
and the JSON view return a 404 not-found response and leave the store
unchanged. -/
theorem unknown_id_not_found (st : Store) (project_id : String)
    (h : st.analyses.lookup (project_id ++ "_analysis.json") = none) :
    analyze st project_id = (PageResult.pageNotFound, st) ∧
    get_analysis_data st project_id = (ApiResult.apiNotFound "Analysis not found", st) ∧
    pageStatus (analyze st project_id).1 = 404 ∧
    apiStatus (get_analysis_data st project_id).1 = 404 := by
  simp [analyze, get_analysis_data, h, pageStatus, apiStatus]

theorem unknown_id_not_found_witness :
    analyze { uploads := [], analyses := [] } "nonexistent" =
      (PageResult.pageNotFound, { uploads := [], analyses := [] }) ∧
    get_analysis_data { uploads := [], analyses := [] } "nonexistent" =
      (ApiResult.apiNotFound "Analysis not found", { uploads := [], analyses := [] }) ∧
    pageStatus (analyze { uploads := [], analyses := [] } "nonexistent").1 = 404 ∧
    apiStatus (get_analysis_data { uploads := [], analyses := [] } "nonexistent").1 = 404 :=
  unknown_id_not_found { uploads := [], analyses := [] } "nonexistent" rfl

/-- C10: in every reachable store, every persisted analysis record —
completed or failed — is stored under a file name built from some
`project_id` and carries exactly that `project_id` in its `project_id`
field: the identifier generated inside `analyze_book_content` is always
overwritten by the upload handler's identifier before persistence. -/
theorem persisted_record_project_id (st : Store) (h : Reachable st) :
    ∀ k r, (k, r) ∈ st.analyses →
      ∃ pid, k = pid ++ "_analysis.json" ∧ r.project_id = some pid := by
  induction h with
  | init => intro k r hm; simp at hm
  | upload st project_id inner_uuid now req _ ih =>
    intro k r hm
    cases hreq : req.bookFile with
    | none =>
      simp only [upload_file, hreq] at hm
      exact ih k r hm
    | some file =>
      by_cases h1 : file.filename = ""
      · simp only [upload_file, hreq, h1, if_true] at hm
        exact ih k r hm
      · by_cases h2 : allowed_file file.filename
        · simp only [upload_file, hreq] at hm
          rw [if_neg h1, if_pos h2] at hm
          simp only [List.mem_cons, Prod.mk.injEq] at hm
          rcases hm with ⟨hk, hr⟩ | hm
          · exact ⟨project_id, hk, by rw [hr]⟩
          · exact ih k r hm
        · simp only [upload_file, hreq] at hm
          rw [if_neg h1, if_neg h2] at hm
          exact ih k r hm
  | view st project_id _ ih =>
    intro k r hm
    rw [analyze_store_eq] at hm
    exact ih k r hm
  | apiView st project_id _ ih =>
    intro k r hm
    rw [get_analysis_data_store_eq] at hm
    exact ih k r hm

theorem persisted_record_project_id_witness :
    ∃ pid, ("id1_analysis.json" : String) = pid ++ "_analysis.json" ∧
      witRecord.project_id = some pid :=
  persisted_record_project_id witStore
    (Reachable.upload { uploads := [], analyses := [] } "id1" "iu" "d"
      { fullName := "n", email := "e",
        bookFile := some { filename := "b.txt", raw := "hi", readError := none } }
      Reachable.init)
    "id1_analysis.json" witRecord (List.Mem.head _)

end Audible
